import Mathlib

/-!
Shallow embedding of the Profile Card Interaction Controller from
`src/frontend/nyanpasu/src/components/profiles/profile-item.tsx` of
clash-nyanpasu: the traffic computation `calc`, the lock-guarded action
handlers `handleSelect`, `handleUpdate` and `handleDelete`, the menu
mapping, and the `TextCarousel` rotating display.

Collaborator calls (`setProfilesConfig`, `deleteConnections`,
`updateProfile`, `deleteProfile`) and state-setter calls are embedded as
an explicit effect trace; a collaborator call's outcome is supplied as an
`Except` parameter.  JavaScript's unguarded number division is embedded
by `JSNum`, which can be `NaN` or an infinity.
-/

/-- A JavaScript number as produced by the unguarded division in `calc`:
a finite rational, `NaN`, `Infinity` or `-Infinity`. -/
inductive JSNum where
  | num : ℚ → JSNum
  | nan : JSNum
  | inf : JSNum
  | negInf : JSNum
deriving DecidableEq

/-- JavaScript division `a / b`: division by zero gives `NaN` when the
dividend is zero and a signed infinity otherwise. -/
def jsDiv (a b : ℚ) : JSNum :=
  if b = 0 then
    if a = 0 then JSNum.nan
    else if 0 < a then JSNum.inf
    else JSNum.negInf
  else JSNum.num (a / b)

/-- JavaScript multiplication of a number by a positive finite constant
(used only with the constant `100` in `calc`): `NaN` and the infinities
are preserved. -/
def jsMulPos (x : JSNum) (c : ℚ) : JSNum :=
  match x with
  | JSNum.num q => JSNum.num (q * c)
  | JSNum.nan => JSNum.nan
  | JSNum.inf => JSNum.inf
  | JSNum.negInf => JSNum.negInf

/-- `Profile.Option`: the stored update options of a profile record. -/
structure ProfileOption where
  with_proxy : Bool
  self_proxy : Bool
deriving DecidableEq

/-- `Profile.Item.extra`: the usage fields of a profile record. -/
structure ProfileExtra where
  download : Nat
  upload : Nat
  total : Nat
  expire : Option Nat
deriving DecidableEq

/-- The values computed by `calc`: `{ progress, total, used }`. -/
structure DerivedTraffic where
  progress : JSNum
  total : Nat
  used : Nat
deriving DecidableEq

/-- Embeds `calc` from `ProfileItem` (named `calcTraffic` because `calc`
is a Lean keyword): `progress`, `total` and `used` start at `0` and, when
`item.extra` is present, are overwritten with `total`,
`download + upload` and the unguarded division `(used / total) * 100`. -/
def calcTraffic (extra : Option ProfileExtra) : DerivedTraffic :=
  match extra with
  | none => { progress := JSNum.num 0, total := 0, used := 0 }
  | some e =>
      let total := e.total
      let used := e.download + e.upload
      { progress := jsMulPos (jsDiv (used : ℚ) (total : ℚ)) 100,
        total := total, used := used }

/-- A JavaScript exception value as inspected by `handleSelect`'s catch
block: whether it is an `Error` instance, its `name`, and its displayed
text (`err.message` for an `Error`, `String(err)` otherwise). -/
structure JsErr where
  isError : Bool
  name : String
  text : String
deriving DecidableEq

/-- The user-visible notifications emitted through `message` from
`@/utils/notification`. -/
inductive MessageKind where
  | fetchError : MessageKind
  | genericSelectError : String → MessageKind
  | deleteFailed : String → MessageKind
deriving DecidableEq

/-- The catch block of `handleSelect`: a localized canned message when
`err instanceof Error && err.name === "FetchError"`, otherwise a generic
message echoing the error text. -/
def selectErrorMessage (err : JsErr) : MessageKind :=
  if err.isError && err.name == "FetchError" then MessageKind.fetchError
  else MessageKind.genericSelectError err.text

/-- One observable effect of a handler: a loading-state update, a backend
collaborator call, or a user notification. -/
inductive Eff where
  | setLoadingCard : Bool → Eff
  | setLoadingUpdate : Bool → Eff
  | callSetProfilesConfig : String → Eff
  | callDeleteConnections : Eff
  | callUpdateProfile : String → ProfileOption → Eff
  | callDeleteProfile : String → Eff
  | notify : MessageKind → Eff
deriving DecidableEq

/-- Embeds `handleSelect` (the body wrapped by `useLockFn`): returns at
once if `selected`; otherwise sets `loading.card`, awaits
`setProfilesConfig({ current: item.uid })`, then awaits
`deleteConnections()`; a rejection of either is caught and turned into a
`message`, and the `finally` block clears `loading.card`. -/
def handleSelect (selected : Bool) (uid : String)
    (setRes delRes : Except JsErr Unit) : List Eff :=
  if selected then []
  else
    ([Eff.setLoadingCard true, Eff.callSetProfilesConfig uid] ++
      (match setRes with
       | Except.error err => [Eff.notify (selectErrorMessage err)]
       | Except.ok _ =>
          Eff.callDeleteConnections ::
            (match delRes with
             | Except.error err => [Eff.notify (selectErrorMessage err)]
             | Except.ok _ => []))) ++
    [Eff.setLoadingCard false]

/-- Embeds the options resolution at the top of `handleUpdate`:
`const options = item.option || { with_proxy: false, self_proxy: false }`
followed by the `if (proxy)` toggle keyed on `item.option?.self_proxy`. -/
def handleUpdateOptions (itemOption : Option ProfileOption) (proxy : Bool) :
    ProfileOption :=
  let options := itemOption.getD { with_proxy := false, self_proxy := false }
  if proxy then
    if (itemOption.map ProfileOption.self_proxy).getD false then
      { options with with_proxy := false, self_proxy := true }
    else
      { options with with_proxy := true, self_proxy := false }
  else options

/-- The result of running `handleUpdate`: its effect trace, and the value
of `item.option` after the handler ran. -/
structure UpdateRun where
  trace : List Eff
  itemOptionAfter : Option ProfileOption
deriving DecidableEq

/-- Embeds `handleUpdate` (the body wrapped by `useLockFn`): resolves the
effective options, then `try { setLoading({update:true}); await
updateProfile(item.uid, options) } finally { setLoading({update:false}) }`
with no catch block.  In the source, `options` aliases `item.option`
whenever the latter is present (`item.option || {...}` copies the
reference), so the `if (proxy)` field assignments mutate the stored
option object in place; `itemOptionAfter` records `item.option` after the
handler ran.  The trace does not depend on `updRes`: rejection only makes
the (uncaught) exception propagate past the `finally` block. -/
def handleUpdate (uid : String) (itemOption : Option ProfileOption)
    (proxy : Bool) (updRes : Except JsErr Unit) : UpdateRun :=
  let options := handleUpdateOptions itemOption proxy
  { trace := [Eff.setLoadingUpdate true, Eff.callUpdateProfile uid options,
      Eff.setLoadingUpdate false],
    itemOptionAfter := itemOption.map fun _ => options }

/-- Embeds `handleDelete` (the body wrapped by `useLockFn`): awaits
`deleteProfile(item.uid)` and turns a rejection into a `message` with the
serialized error payload. -/
def handleDelete (uid : String) (delRes : Except JsErr Unit) : List Eff :=
  Eff.callDeleteProfile uid ::
    (match delRes with
     | Except.error err => [Eff.notify (MessageKind.deleteFailed err.text)]
     | Except.ok _ => [])

/-- The loading flag driven by a trace: fold the trace, taking the last
value written by the selected setter. -/
def loadAfter (f : Eff → Option Bool) (init : Bool) (tr : List Eff) : Bool :=
  tr.foldl (fun b e => (f e).getD b) init

/-- Projects `setLoading({ card: b })` effects. -/
def cardFlagOf : Eff → Option Bool
  | Eff.setLoadingCard b => some b
  | _ => none

/-- Projects `setLoading({ update: b })` effects. -/
def updateFlagOf : Eff → Option Bool
  | Eff.setLoadingUpdate b => some b
  | _ => none

/-- The backend calls made by the select action. -/
def isSelectBackendCall : Eff → Bool
  | Eff.callSetProfilesConfig _ => true
  | Eff.callDeleteConnections => true
  | _ => false

/-- The backend call made by the update action. -/
def isUpdateBackendCall : Eff → Bool
  | Eff.callUpdateProfile _ _ => true
  | _ => false

/-- `flagDuringCalls f isCall cur tr` holds when, walking `tr` with the
flag initially `cur`, every effect satisfying `isCall` occurs while the
flag projected by `f` is `true`. -/
def flagDuringCalls (f : Eff → Option Bool) (isCall : Eff → Bool) :
    Bool → List Eff → Bool
  | _, [] => true
  | cur, e :: tr =>
      (!isCall e || cur) && flagDuringCalls f isCall ((f e).getD cur) tr

/-- Whether a trace emits any user notification. -/
def hasNotify (tr : List Eff) : Bool :=
  tr.any fun e =>
    match e with
    | Eff.notify _ => true
    | _ => false

/-- Modelled from the spec: each handler is wrapped by `useLockFn` from
the ahooks library, whose source is not part of this repository.  Per the
spec's Action Lock Guard contract, the three wrapped handlers are keyed
actions: select (`handleSelect`), update (`handleUpdate`, shared by both
update menu entries) and delete (`handleDelete`). -/
inductive ActionKey where
  | select | update | delete
deriving DecidableEq

/-- Modelled from the spec: the per-card lock state of the Action Lock
Guard — one in-flight bit per action key. -/
structure LockState where
  selectInFlight : Bool
  updateInFlight : Bool
  deleteInFlight : Bool
deriving DecidableEq

/-- Whether the given key's invocation is in flight. -/
def inFlight (s : LockState) : ActionKey → Bool
  | ActionKey.select => s.selectInFlight
  | ActionKey.update => s.updateInFlight
  | ActionKey.delete => s.deleteInFlight

/-- Sets the given key's in-flight bit. -/
def setFlight (s : LockState) : ActionKey → Bool → LockState
  | ActionKey.select, b => { s with selectInFlight := b }
  | ActionKey.update, b => { s with updateInFlight := b }
  | ActionKey.delete, b => { s with deleteInFlight := b }

/-- A lock-level event: a user trigger of a keyed action, or the
completion (resolution or rejection) of its in-flight invocation. -/
inductive LockEvent where
  | trigger : ActionKey → LockEvent
  | complete : ActionKey → LockEvent
deriving DecidableEq

/-- Modelled from the spec: one step of the `useLockFn` guard.  A trigger
while the key is in flight is dropped (no underlying invocation, not
queued); otherwise the key becomes in flight and the underlying handler
is invoked once.  Completion releases the lock.  The second component
lists the underlying invocations performed by the step. -/
def lockStep (s : LockState) : LockEvent → LockState × List ActionKey
  | LockEvent.trigger k =>
      if inFlight s k then (s, []) else (setFlight s k true, [k])
  | LockEvent.complete k => (setFlight s k false, [])

/-- Runs a sequence of lock events, collecting the underlying
invocations. -/
def lockRun (s : LockState) : List LockEvent → LockState × List ActionKey
  | [] => (s, [])
  | e :: es =>
      let step := lockStep s e
      let rest := lockRun step.1 es
      (rest.1, step.2 ++ rest.2)

/-- The entries of `menuMapping`, in source order. -/
inductive MenuEntry where
  | select | editInfo | proxyChains | openFile | update | updateProxy | delete
deriving DecidableEq

/-- Embeds `menuMapping`: the lock-guarded action key each menu entry
triggers, `none` for entries bound to unguarded calls (Edit Info, Proxy
Chains, Open File).  `Update` invokes `handleUpdate()` and
`Update(Proxy)` invokes `handleUpdate(true)` — the same
`useLockFn`-wrapped function, hence the same key and loading flag. -/
def menuActionKey : MenuEntry → Option ActionKey
  | MenuEntry.select => some ActionKey.select
  | MenuEntry.editInfo => none
  | MenuEntry.proxyChains => none
  | MenuEntry.openFile => none
  | MenuEntry.update => some ActionKey.update
  | MenuEntry.updateProxy => some ActionKey.update
  | MenuEntry.delete => some ActionKey.delete

/-- Triggering one menu entry against the lock state. -/
def menuTrigger (s : LockState) (e : MenuEntry) : LockState × List ActionKey :=
  match menuActionKey e with
  | some k => lockStep s (LockEvent.trigger k)
  | none => (s, [])

/-- Runs a sequence of menu triggers (no completion in between: every
invocation stays in flight), collecting the underlying invocations. -/
def menuRun (s : LockState) : List MenuEntry → LockState × List ActionKey
  | [] => (s, [])
  | e :: es =>
      let step := menuTrigger s e
      let rest := menuRun step.1 es
      (rest.1, step.2 ++ rest.2)

/-- Counts the `updateProfile` invocations in an invocation list. -/
def countUpdateCalls (ks : List ActionKey) : Nat :=
  (ks.filter fun k => decide (k = ActionKey.update)).length

/-- The filtering in `TextCarousel`: `props.nodes.filter(item => !!item)`
— each element of `props.nodes` is either absent (a falsy `cond && node`)
or a present node. -/
def carouselNodes {α : Type} (nodes : List (Option α)) : List α :=
  nodes.filterMap id

/-- `nextNode` from `TextCarousel`: `setIndex(i => (i + 1) % nodes.length)`.
The index is a JavaScript number: `none` embeds the `NaN` produced by
`(i + 1) % 0` when the filtered list is empty, and `NaN` is absorbing. -/
def nextNodeIndex (len : Nat) : Option Nat → Option Nat
  | some i => if len = 0 then none else some ((i + 1) % len)
  | none => none

/-- The per-card state of `TextCarousel`: the current index and whether a
rotation interval is armed. -/
structure CarouselState where
  index : Option Nat
  timerArmed : Bool
deriving DecidableEq

/-- The initial render: `useState(0)`, no effect has run yet. -/
def carouselInit : CarouselState := { index := some 0, timerArmed := false }

/-- The `useEffect` body: arms `setInterval(nextNode, 5000)`
unconditionally — the source has no guard on `nodes.length`. -/
def carouselEffect (s : CarouselState) : CarouselState :=
  { s with timerArmed := true }

/-- The state after mount: the effect has run once. -/
def carouselMount : CarouselState := carouselEffect carouselInit

/-- An interval tick: `nextNode()` advances the index, and the effect
(keyed on `[index, nextNode]`) re-arms the interval. -/
def carouselTick (len : Nat) (s : CarouselState) : CarouselState :=
  carouselEffect { s with index := nextNodeIndex len s.index }

/-- A click on the display region: also `nextNode()`. -/
def carouselClick (len : Nat) (s : CarouselState) : CarouselState :=
  carouselEffect { s with index := nextNodeIndex len s.index }

/-- Unmount: the effect cleanup `clearInterval(timer)` runs. -/
def carouselUnmount (s : CarouselState) : CarouselState :=
  { s with timerArmed := false }

/-- The nodes rendered by `TextCarousel`: `nodes.map((node, i) => i ==
index && ...)` — exactly the node whose position equals the current
index, and nothing when the index is `NaN` or out of range. -/
def carouselRendered {α : Type} (nodes : List α) (i : Option Nat) : List α :=
  ((nodes.enum).filter fun p => decide (some p.1 = i)).map Prod.snd

/-!
Theorems.
-/

theorem countUpdateCalls_append (a b : List ActionKey) :
    countUpdateCalls (a ++ b) = countUpdateCalls a + countUpdateCalls b := by
  simp [countUpdateCalls, List.filter_append]

theorem countUpdateCalls_nil : countUpdateCalls [] = 0 := rfl

theorem countUpdateCalls_one_update : countUpdateCalls [ActionKey.update] = 1 := rfl

theorem countUpdateCalls_one_select : countUpdateCalls [ActionKey.select] = 0 := rfl

theorem countUpdateCalls_one_delete : countUpdateCalls [ActionKey.delete] = 0 := rfl

theorem menuRun_update_bound (es : List MenuEntry) :
    ∀ s : LockState, countUpdateCalls (menuRun s es).2
      ≤ if s.updateInFlight then 0 else 1 := by
  induction es with
  | nil => intro s; simp [menuRun, countUpdateCalls]
  | cons e es ih =>
      rintro ⟨a, b, c⟩
      have h1 := ih ⟨a, b, c⟩
      have h2 := ih ⟨true, b, c⟩
      have h3 := ih ⟨a, true, c⟩
      have h4 := ih ⟨a, b, true⟩
      cases e <;> cases a <;> cases b <;> cases c <;>
        simp_all only [menuRun, menuTrigger, menuActionKey, lockStep, inFlight,
          setFlight, countUpdateCalls_append, countUpdateCalls_nil,
          countUpdateCalls_one_update, countUpdateCalls_one_select,
          countUpdateCalls_one_delete, if_true, if_false, Bool.false_eq_true,
          ite_true, ite_false] <;>
        omega

/-- C1 — counterexample: with usage present, `total = 0` and nonzero use,
`calc` performs the unguarded division `(1 / 0) * 100` and `progress` is
`Infinity`, not `0` as the claim requires. -/
theorem calcTraffic_total_zero_cex :
    (calcTraffic
      (some { download := 1, upload := 0, total := 0, expire := none })).progress
        = JSNum.inf ∧
    (calcTraffic
      (some { download := 1, upload := 0, total := 0, expire := none })).progress
        ≠ JSNum.num 0 := by
  constructor
  · show jsMulPos (jsDiv ((1 + 0 : Nat) : ℚ) ((0 : Nat) : ℚ)) 100 = JSNum.inf
    norm_num [jsDiv, jsMulPos]
  · show jsMulPos (jsDiv ((1 + 0 : Nat) : ℚ) ((0 : Nat) : ℚ)) 100 ≠ JSNum.num 0
    norm_num [jsDiv, jsMulPos]
    decide

/-- C1 — amended: `progress = 0` when usage is absent; when usage is
present the division is unguarded, so for `total = 0` the output is `NaN`
(when `download + upload = 0`) or `Infinity` (when positive), and only
for `total ≠ 0` is it the exact finite percentage. -/
theorem calcTraffic_progress_amended (e : ProfileExtra) :
    (calcTraffic none).progress = JSNum.num 0 ∧
    (calcTraffic (some e)).progress =
      (if e.total = 0 then
        (if e.download + e.upload = 0 then JSNum.nan else JSNum.inf)
       else JSNum.num (((e.download + e.upload : Nat) : ℚ)
          / ((e.total : Nat) : ℚ) * 100)) := by
  refine ⟨rfl, ?_⟩
  show jsMulPos (jsDiv ((e.download + e.upload : Nat) : ℚ) ((e.total : Nat) : ℚ)) 100 = _
  by_cases ht : e.total = 0
  · by_cases hu : e.download + e.upload = 0
    · simp [jsDiv, jsMulPos, ht, hu]
    · have hpos : (0 : ℚ) < (e.download : ℚ) + (e.upload : ℚ) := by
        exact_mod_cast Nat.pos_of_ne_zero hu
      have hne : ¬((e.download : ℚ) + (e.upload : ℚ) = 0) := ne_of_gt hpos
      have hu' : ¬(e.download = 0 ∧ e.upload = 0) := by
        rintro ⟨h1, h2⟩
        exact hu (by omega)
      simp [jsDiv, jsMulPos, ht, hne, hpos, hu']
  · have ht' : ((e.total : Nat) : ℚ) ≠ 0 := by exact_mod_cast ht
    simp [jsDiv, jsMulPos, ht, ht']

/-- C2 — confirmed (lock modelled from the spec): a trigger for an action
key already in flight performs no underlying invocation (it is dropped),
and from any state where the key is not in flight, two back-to-back
triggers of the same key perform exactly one underlying invocation. -/
theorem lock_guard_reentrancy (s : LockState) (k : ActionKey) :
    (lockStep s (LockEvent.trigger k)).2
      = (if inFlight s k then [] else [k]) ∧
    (lockRun (setFlight s k false)
        [LockEvent.trigger k, LockEvent.trigger k]).2 = [k] := by
  constructor
  · cases h : inFlight s k <;> simp [lockStep, h]
  · rcases s with ⟨a, b, c⟩
    cases k <;> simp [lockRun, lockStep, setFlight, inFlight]

/-- C3 — confirmed: on a non-selected card, `setProfilesConfig` is always
called; when it rejects, `deleteConnections` is never called; when it
resolves, the trace contains `setProfilesConfig` strictly before
`deleteConnections`, for every outcome of the second call. -/
theorem select_calls_sequenced (uid : String) (err : JsErr)
    (delRes : Except JsErr Unit) :
    Eff.callSetProfilesConfig uid
        ∈ handleSelect false uid (Except.error err) delRes ∧
    Eff.callDeleteConnections
        ∉ handleSelect false uid (Except.error err) delRes ∧
    ∃ l₁ l₂, handleSelect false uid (Except.ok ()) delRes
        = l₁ ++ Eff.callSetProfilesConfig uid :: l₂ ∧
      Eff.callDeleteConnections ∈ l₂ := by
  refine ⟨?_, ?_, ?_⟩
  · simp [handleSelect]
  · simp [handleSelect]
  · refine ⟨[Eff.setLoadingCard true],
      Eff.callDeleteConnections ::
        ((match delRes with
          | Except.error e => [Eff.notify (selectErrorMessage e)]
          | Except.ok _ => []) ++ [Eff.setLoadingCard false]), ?_, ?_⟩
    · cases delRes <;> simp [handleSelect]
    · simp

/-- C4 — confirmed: without the proxy flag the stored options (or the
default when none are stored) are passed unchanged; with the proxy flag
the effective options are `{with_proxy := false, self_proxy := true}`
when the stored `self_proxy` was already true and
`{with_proxy := true, self_proxy := false}` otherwise; and the resolved
options are precisely what `updateProfile` is invoked with. -/
theorem update_options_resolved (o : ProfileOption) (uid : String)
    (itemOption : Option ProfileOption) (proxy : Bool)
    (updRes : Except JsErr Unit) :
    handleUpdateOptions none false
        = { with_proxy := false, self_proxy := false } ∧
    handleUpdateOptions (some o) false = o ∧
    handleUpdateOptions none true
        = { with_proxy := true, self_proxy := false } ∧
    handleUpdateOptions (some o) true
        = (if o.self_proxy then { with_proxy := false, self_proxy := true }
           else { with_proxy := true, self_proxy := false }) ∧
    Eff.callUpdateProfile uid (handleUpdateOptions itemOption proxy)
        ∈ (handleUpdate uid itemOption proxy updRes).trace := by
  refine ⟨rfl, rfl, rfl, ?_, ?_⟩
  · cases h : o.self_proxy <;> simp [handleUpdateOptions, h]
  · simp [handleUpdate]

/-- C5 — confirmed: for both guarded actions and every collaborator
outcome (including rejections), every backend call in the trace happens
while the action's loading flag is true, and the flag folds back to false
at the end of the trace — the `finally` blocks reset it
unconditionally. -/
theorem loading_flags_guarded (uid : String)
    (setRes delRes updRes : Except JsErr Unit)
    (itemOption : Option ProfileOption) (proxy : Bool) :
    loadAfter cardFlagOf false (handleSelect false uid setRes delRes)
        = false ∧
    flagDuringCalls cardFlagOf isSelectBackendCall false
        (handleSelect false uid setRes delRes) = true ∧
    loadAfter updateFlagOf false
        (handleUpdate uid itemOption proxy updRes).trace = false ∧
    flagDuringCalls updateFlagOf isUpdateBackendCall false
        (handleUpdate uid itemOption proxy updRes).trace = true := by
  refine ⟨?_, ?_, rfl, rfl⟩ <;>
    cases setRes <;> cases delRes <;>
      simp [handleSelect, loadAfter, flagDuringCalls, cardFlagOf,
        isSelectBackendCall]

/-- C6 — counterexample: with both snippet sources absent the filtered
list is empty and nothing is rendered, but after mount the rotation
interval is still armed — the effect arms it unconditionally, against the
claim that no timer is armed when the list is empty. -/
theorem carousel_empty_timer_cex :
    carouselNodes ([none, none] : List (Option Nat)) = [] ∧
    carouselRendered (carouselNodes ([none, none] : List (Option Nat)))
      carouselMount.index = [] ∧
    carouselMount.timerArmed = true := by
  exact ⟨rfl, rfl, rfl⟩

/-- C6 — amended: with an empty filtered list nothing is rendered, but
the rotation interval is armed unconditionally on mount and stays armed
across ticks; a tick with an empty list sets the index to `NaN`
(`(i + 1) % 0`), and the display still renders nothing. -/
theorem carousel_empty_amended (i : Option Nat) :
    carouselRendered ([] : List Nat) i = [] ∧
    carouselMount.timerArmed = true ∧
    (carouselTick 0 carouselMount).index = none ∧
    (carouselTick 0 carouselMount).timerArmed = true ∧
    carouselRendered ([] : List Nat) (carouselTick 0 carouselMount).index
        = [] := by
  exact ⟨rfl, rfl, rfl, rfl, rfl⟩

/-- C7 — the code evaluated at the failing input: an update via proxy
with stored options `{with_proxy := false, self_proxy := false}` leaves
`item.option` mutated in place to
`{with_proxy := true, self_proxy := false}` (the handler's `options`
aliases `item.option`), contradicting the claim that the profile record
is never mutated by the controller. -/
theorem update_via_proxy_mutates_option :
    (handleUpdate "p1" (some { with_proxy := false, self_proxy := false })
        true (Except.ok ())).itemOptionAfter
      = some { with_proxy := true, self_proxy := false } ∧
    (handleUpdate "p1" (some { with_proxy := false, self_proxy := false })
        true (Except.ok ())).itemOptionAfter
      ≠ some { with_proxy := false, self_proxy := false } := by
  exact ⟨rfl, by decide⟩

/-- C8 — confirmed: the update handler emits no user notification for any
collaborator outcome (its rejection is swallowed at this layer — no catch
block), while a failed select and a failed delete both emit one. -/
theorem update_failures_swallowed (uid : String)
    (itemOption : Option ProfileOption) (proxy : Bool)
    (updRes delRes : Except JsErr Unit) (err : JsErr) :
    hasNotify (handleUpdate uid itemOption proxy updRes).trace = false ∧
    hasNotify (handleSelect false uid (Except.error err) delRes) = true ∧
    hasNotify (handleDelete uid (Except.error err)) = true := by
  refine ⟨rfl, ?_, rfl⟩
  simp [handleSelect, hasNotify]

/-- C9 — confirmed: triggering select on an already-selected card
produces an empty effect trace — zero backend calls, no notification, and
the loading flag is left exactly as it was. -/
theorem select_on_selected_noop (uid : String)
    (setRes delRes : Except JsErr Unit) (b : Bool) :
    handleSelect true uid setRes delRes = [] ∧
    loadAfter cardFlagOf b (handleSelect true uid setRes delRes) = b := by
  exact ⟨rfl, rfl⟩

/-- C10 — confirmed (lock modelled from the spec): the Update and
Update(Proxy) menu entries trigger the same lock key, a trigger of either
is dropped while an update is in flight, and over any interleaving of
menu triggers (with the in-flight invocation not yet completed) at most
one `updateProfile` invocation is performed. -/
theorem menu_update_shared_lock (s : LockState) (es : List MenuEntry) :
    menuActionKey MenuEntry.update = some ActionKey.update ∧
    menuActionKey MenuEntry.updateProxy = some ActionKey.update ∧
    (menuTrigger s MenuEntry.update).2
        = (if s.updateInFlight then [] else [ActionKey.update]) ∧
    (menuTrigger s MenuEntry.updateProxy).2
        = (if s.updateInFlight then [] else [ActionKey.update]) ∧
    countUpdateCalls (menuRun s es).2
        ≤ (if s.updateInFlight then 0 else 1) := by
  refine ⟨rfl, rfl, ?_, ?_, menuRun_update_bound es s⟩ <;>
    cases h : s.updateInFlight <;>
      simp [menuTrigger, menuActionKey, lockStep, inFlight, h]
